import Mathlib

/-!
# Verification of the ND-BOT facial-metrics engine

A shallow embedding of the pure computation core of the repository:

* src/analyzers/lookism_metrics.py — landmark accessor, geometry primitives,
  per-metric extractors, skin normalizer and the aggregator compute_all;
* src/analyzers/metrics.py — the composite-rating / category classifier
  (lines 330-364 of extract_all_metrics).

Python values flowing through the aggregator are modelled by the inductive
type PyVal (numbers as exact rationals, strings, dicts as association lists,
and None).  Operations that can raise in Python (attribute access on a
non-dict, arithmetic on a non-number) are modelled in the Except monad; a
try/except block in the source becomes a match on the Except result with the
documented fallback in the error branch.  Geometry that uses sqrt/acos/atan2
is carried out over the real numbers.
-/

namespace NDBot

/-- A Python value as it appears in the Face++ / AILab JSON payloads:
a number (floats modelled as exact rationals), a string, a dict
(association list, later bindings shadow earlier ones on lookup),
or None. -/
inductive PyVal where
  | num (q : ℚ)
  | str (s : String)
  | obj (fields : List (String × PyVal))
  | none_
deriving Repr

/-- Python truthiness: 0, "", {}, None are falsy. -/
def pyTruthy : PyVal → Bool
  | .num q => q != 0
  | .str s => !s.isEmpty
  | .obj fs => !fs.isEmpty
  | .none_ => false

/-- Python equality of a value against the float 0.0: only numbers can
compare equal to 0.0 (strings/dicts/None compare unequal, no exception). -/
def PyVal.eqZero : PyVal → Bool
  | .num q => q == 0
  | _ => false

/-- Python v[key]: dict lookup; raises KeyError when the key is absent and
TypeError when v is not subscriptable by a string. -/
def pyIndex : PyVal → String → Except Unit PyVal
  | .obj fs, k => match fs.lookup k with
      | some v => .ok v
      | none => .error ()
  | _, _ => .error ()

/-- Python v.get(key, default): raises AttributeError unless v is a dict. -/
def pyGetD : PyVal → String → PyVal → Except Unit PyVal
  | .obj fs, k, d => .ok ((fs.lookup k).getD d)
  | _, _, _ => .error ()

/-- Python v.get(key) with no default (absent key gives None). -/
def pyGet1 (v : PyVal) (k : String) : Except Unit PyVal :=
  pyGetD v k .none_

/-- Python "key in v": key test for dicts, substring test for strings,
TypeError otherwise. -/
def pyContains : PyVal → String → Except Unit Bool
  | .obj fs, k => .ok (fs.any (fun e => e.1 == k))
  | .str s, k => .ok (decide ((s.splitOn k).length > 1))
  | _, _ => .error ()

/-- Extract the numeric value of a PyVal; error models the TypeError raised
by arithmetic on a non-number. -/
def PyVal.toQ : PyVal → Except Unit ℚ
  | .num q => .ok q
  | _ => .error ()

/-! ## Landmark accessor (src/analyzers/lookism_metrics.py, get_point) -/

/-- get_point(landmarks, key): returns (point[x], point[y]) with the raw
stored values, and the sentinel (0.0, 0.0) when the lookup raises
KeyError or TypeError (absent key, malformed point, non-dict landmark set). -/
def get_point (landmarks : PyVal) (key : String) : PyVal × PyVal :=
  match pyIndex landmarks key with
  | .error _ => (.num 0, .num 0)
  | .ok point =>
      match pyIndex point "x", pyIndex point "y" with
      | .ok x, .ok y => (x, y)
      | _, _ => (.num 0, .num 0)

/-- Python tuple comparison of a looked-up point against the missing-landmark
sentinel (0.0, 0.0). -/
def isSentinel (p : PyVal × PyVal) : Bool :=
  p.1.eqZero && p.2.eqZero

/-- Numeric coordinates of a looked-up point; error models the TypeError the
arithmetic of the caller raises when a coordinate is not a number. -/
def ptQ (p : PyVal × PyVal) : Except Unit (ℚ × ℚ) :=
  match p.1.toQ, p.2.toQ with
  | .ok x, .ok y => .ok (x, y)
  | _, _ => .error ()

/-- Look a point up and require numeric coordinates (the common pattern of
every extractor body: get_point then arithmetic inside try/except). -/
def numPt (landmarks : PyVal) (key : String) : Except Unit (ℚ × ℚ) :=
  ptQ (get_point landmarks key)

/-! ## Geometry primitives -/

/-- compute_distance(p1, p2): Euclidean distance. -/
noncomputable def compute_distance (p1 p2 : ℚ × ℚ) : ℝ :=
  Real.sqrt (((p1.1 : ℝ) - (p2.1 : ℝ)) ^ 2 + ((p1.2 : ℝ) - (p2.2 : ℝ)) ^ 2)

/-- math.degrees. -/
noncomputable def degrees (x : ℝ) : ℝ := x * 180 / Real.pi

/-- math.atan2 (range (-pi, pi]). -/
noncomputable def atan2 (y x : ℝ) : ℝ :=
  if 0 < x then Real.arctan (y / x)
  else if x < 0 then
    (if 0 ≤ y then Real.arctan (y / x) + Real.pi else Real.arctan (y / x) - Real.pi)
  else (if 0 < y then Real.pi / 2 else if y < 0 then -(Real.pi / 2) else 0)

/-- compute_angle_3points(p1, p2, p3) from src/analyzers/lookism_metrics.py:
angle at p2 formed by p1-p2-p3 in degrees.  Returns 0 when either ray has
zero magnitude; clamps the cosine into [-1, 1] before acos. -/
noncomputable def compute_angle_3points (p1 p2 p3 : ℝ × ℝ) : ℝ :=
  let v1 : ℝ × ℝ := (p1.1 - p2.1, p1.2 - p2.2)
  let v2 : ℝ × ℝ := (p3.1 - p2.1, p3.2 - p2.2)
  let dot_product := v1.1 * v2.1 + v1.2 * v2.2
  let mag1 := Real.sqrt (v1.1 ^ 2 + v1.2 ^ 2)
  let mag2 := Real.sqrt (v2.1 ^ 2 + v2.2 ^ 2)
  if mag1 = 0 ∨ mag2 = 0 then 0
  else
    let cos_angle := max (-1) (min 1 (dot_product / (mag1 * mag2)))
    degrees (Real.arccos cos_angle)

/-- calculate_angle(p1, p2, p3) from src/core/lookism_metrics.py: the same
computation (zero-magnitude guard, then np.clip of the cosine into
[-1, 1] before acos, then degrees). -/
noncomputable def calculate_angle (p1 p2 p3 : ℝ × ℝ) : ℝ :=
  let v1 : ℝ × ℝ := (p1.1 - p2.1, p1.2 - p2.2)
  let v2 : ℝ × ℝ := (p3.1 - p2.1, p3.2 - p2.2)
  let dot_product := v1.1 * v2.1 + v1.2 * v2.2
  let mag_v1 := Real.sqrt (v1.1 ^ 2 + v1.2 ^ 2)
  let mag_v2 := Real.sqrt (v2.1 ^ 2 + v2.2 ^ 2)
  if mag_v1 = 0 ∨ mag_v2 = 0 then 0
  else degrees (Real.arccos (max (-1.0) (min 1.0 (dot_product / (mag_v1 * mag_v2)))))

/-! ## Symmetry extractor (src/analyzers/lookism_metrics.py, lines 188-224) -/

/-- The four symmetry landmark pairs of compute_symmetry_score. -/
def symmetry_pairs : List (String × String) :=
  [("left_eye_pupil", "right_eye_pupil"),
   ("left_eyebrow_upper_middle", "right_eyebrow_upper_middle"),
   ("mouth_left_corner", "mouth_right_corner"),
   ("contour_left9", "contour_right9")]

/-- One loop iteration of compute_symmetry_score: the relative asymmetry of
one landmark pair against the midline x, or none when the pair is skipped
(inner exception — non-numeric coordinate — or max distance not > 0). -/
def symPairAsymmetry (landmarks : PyVal) (center_x : PyVal)
    (pr : String × String) : Option ℚ :=
  match center_x.toQ, (get_point landmarks pr.1).1.toQ,
      (get_point landmarks pr.2).1.toQ with
  | .ok cx, .ok lx, .ok rx =>
      let ld := |lx - cx|
      let rd := |rx - cx|
      if max ld rd > 0 then some (|ld - rd| / max ld rd) else none
  | _, _, _ => none

/-- The asymmetries of the valid pairs (the accumulated
total_asymmetry list; valid_pairs is its length). -/
def validAsymmetries (landmarks : PyVal) : List ℚ :=
  symmetry_pairs.filterMap
    (symPairAsymmetry landmarks (get_point landmarks "nose_tip").1)

/-- compute_symmetry_score: 0.8 when no valid pairs, else
max(0, 1 - total_asymmetry / valid_pairs). -/
def compute_symmetry_score (landmarks : PyVal) : ℚ :=
  let contribs := validAsymmetries landmarks
  if contribs.length = 0 then 0.8
  else max 0 (1 - contribs.sum / (contribs.length : ℚ))

/-! ## Skin normalizer (src/analyzers/lookism_metrics.py, lines 279-338) -/

/-- _clamp: max(0.0, min(100.0, val)). -/
def clamp100 (val : ℚ) : ℚ := max 0 (min 100 val)

/-- Half-to-even rounding of Python round() to the nearest integer. -/
def pyRoundInt (x : ℚ) : ℤ :=
  let f := ⌊x⌋
  let frac := x - f
  if frac < 1 / 2 then f
  else if 1 / 2 < frac then f + 1
  else if f % 2 = 0 then f else f + 1

/-- Python round(x, 1). -/
def qround1 (x : ℚ) : ℚ := (pyRoundInt (10 * x) : ℚ) / 10

/-- Python round(x, 2). -/
def qround2 (x : ℚ) : ℚ := (pyRoundInt (100 * x) : ℚ) / 100

/-- normalize_skinstatus: affine rescale of the raw Face++ values onto
0-100 (higher is better) with clamping; its internal try/except yields the
midpoint triple (50, 50, 50) when a raw value is not a number. -/
def normalize_skinstatus (health acne stain : PyVal) : ℚ × ℚ × ℚ :=
  match health.toQ, acne.toQ, stain.toQ with
  | .ok h, .ok a, .ok s =>
      (clamp100 (h * 12.5 + 20), clamp100 (120 - 1.2 * a),
        clamp100 (120 - 1.2 * s))
  | _, _, _ => (50, 50, 50)

/-- A value of the skin-metrics record: a float or the string N/A. -/
inductive SkinVal where
  | num (q : ℚ)
  | na
deriving DecidableEq, Repr

/-- The body of compute_skin_metrics inside its try block: attribute
accesses in sequence, the missing raw attributes replaced by the dict-get
defaults (health/acne/stain raw 50, face quality 80), then the weighted
composite rounded to one decimal.  Returns the tuple
(skin_score, health, acne, stain). -/
def skinScores (face_data : PyVal) : Except Unit (ℚ × ℚ × ℚ × ℚ) := do
  let attributes ← pyGetD face_data "attributes" (.obj [])
  let skin_status ← pyGetD attributes "skinstatus" (.obj [])
  let fq_field ← pyGetD attributes "facequality" (.obj [])
  let face_quality ← pyGetD fq_field "value" (.num 80)
  let raw_health ← pyGetD skin_status "health" (.num 50)
  let raw_acne ← pyGetD skin_status "acne" (.num 50)
  let raw_stain ← pyGetD skin_status "stain" (.num 50)
  let norm := normalize_skinstatus raw_health raw_acne raw_stain
  let health_norm := norm.1
  let acne_norm := norm.2.1
  let stain_norm := norm.2.2
  let weighted_internal :=
    0.45 * health_norm + 0.40 * acne_norm + 0.15 * stain_norm
  let fq ← face_quality.toQ
  let final_score := qround1 (0.7 * weighted_internal + 0.3 * fq)
  pure (final_score, qround2 health_norm, qround2 acne_norm,
    qround2 stain_norm)

/-- compute_skin_metrics: the try body, with the except branch returning the
zeroed record with N/A showcase values. -/
def compute_skin_metrics (face_data : PyVal) : List (String × SkinVal) :=
  match skinScores face_data with
  | .ok (final_score, health, acne, stain) =>
      [("skin_score", .num final_score), ("health", .num health),
        ("acne", .num acne), ("stain", .num stain)]
  | .error _ =>
      [("skin_score", .num 0), ("health", .na), ("acne", .na), ("stain", .na)]

/-- Constructor for a face payload whose four raw skin attributes are each
optionally present (present values numeric). -/
def mkSkinFace (health acne stain fq : Option ℚ) : PyVal :=
  .obj [("attributes", .obj
    ([("skinstatus", .obj
        ((match health with | some q => [("health", PyVal.num q)] | none => []) ++
         (match acne with | some q => [("acne", PyVal.num q)] | none => []) ++
         (match stain with | some q => [("stain", PyVal.num q)] | none => [])))] ++
     (match fq with
      | some q => [("facequality", PyVal.obj [("value", PyVal.num q)])]
      | none => [])))]

/-- Modelled from the words of the claim, for comparison with the code: the
composite with the midpoint default 50 substituted for the sub-score of any
absent raw attribute (including face quality) before combining. -/
def skin_score_claimed (health acne stain fq : Option ℚ) : ℚ :=
  let health_norm := match health with
    | some h => clamp100 (h * 12.5 + 20)
    | none => 50
  let acne_norm := match acne with
    | some a => clamp100 (120 - 1.2 * a)
    | none => 50
  let stain_norm := match stain with
    | some s => clamp100 (120 - 1.2 * s)
    | none => 50
  let fqv := fq.getD 50
  qround1 (0.7 * (0.45 * health_norm + 0.40 * acne_norm + 0.15 * stain_norm)
    + 0.3 * fqv)

/-! ## Metric extractors (src/analyzers/lookism_metrics.py) -/

/-- Cast a rational point to a real point. -/
noncomputable def qPt (p : ℚ × ℚ) : ℝ × ℝ := ((p.1 : ℝ), (p.2 : ℝ))

/-- Half-to-even rounding (Python round()) on the reals. -/
noncomputable def rRoundInt (x : ℝ) : ℤ :=
  let f := ⌊x⌋
  let frac := x - f
  if frac < 1 / 2 then f
  else if 1 / 2 < frac then f + 1
  else if f % 2 = 0 then f else f + 1

/-- Python round(x, 1) on the reals. -/
noncomputable def rround1 (x : ℝ) : ℝ := (rRoundInt (10 * x) : ℝ) / 10

/-- The tilt of one eye inside compute_canthal_tilt:
degrees(atan2(dy, dx)) when dx ≠ 0, else 0. -/
noncomputable def eyeTilt (dx dy : ℚ) : ℝ :=
  if dx ≠ 0 then degrees (atan2 (dy : ℝ) (dx : ℝ)) else 0

/-- compute_canthal_tilt: average of the per-eye tilts between outer and
inner canthus; 0.0 on any exception (non-numeric coordinate). -/
noncomputable def compute_canthal_tilt (landmarks : PyVal) : ℝ :=
  match numPt landmarks "left_eye_left_corner",
      numPt landmarks "left_eye_right_corner",
      numPt landmarks "right_eye_left_corner",
      numPt landmarks "right_eye_right_corner" with
  | .ok left_outer, .ok left_inner, .ok right_inner, .ok right_outer =>
      let left_tilt :=
        eyeTilt (left_outer.1 - left_inner.1) (left_outer.2 - left_inner.2)
      let right_tilt :=
        eyeTilt (right_inner.1 - right_outer.1) (right_inner.2 - right_outer.2)
      (left_tilt + right_tilt) / 2
  | _, _, _, _ => 0

/-- compute_interpupil_distance: distance between the pupils; 60.0 on any
exception. -/
noncomputable def compute_interpupil_distance (landmarks : PyVal) : ℝ :=
  match numPt landmarks "left_eye_pupil", numPt landmarks "right_eye_pupil" with
  | .ok l, .ok r => compute_distance l r
  | _, _ => 60

/-- compute_mid_face_ratio: dist(subnasale, stomion) / dist(glabella, menton),
0.65 when the denominator is not positive or on any exception. -/
noncomputable def compute_mid_face_ratio (landmarks : PyVal) : ℝ :=
  match numPt landmarks "nose_contour_lower_middle",
      numPt landmarks "mouth_upper_lip_top",
      numPt landmarks "left_eyebrow_upper_middle",
      numPt landmarks "contour_chin" with
  | .ok subnasale, .ok stomion, .ok glabella, .ok menton =>
      let mid_face_height := compute_distance subnasale stomion
      let total_face_height := compute_distance glabella menton
      if total_face_height > 0 then mid_face_height / total_face_height
      else 0.65
  | _, _, _, _ => 0.65

/-- A value of the aggregated metric record: a float, the string N/A, a
value copied through from the provider attributes, or the nested
facial-thirds breakdown. -/
inductive MetricVal where
  | real (x : ℝ)
  | na
  | py (v : PyVal)
  | thirds (upper middle lower : ℝ)

/-- compute_gonial_angle: N/A when either jaw contour point is the missing
sentinel or a coordinate is non-numeric, else the rounded angle at the chin
between the two jaw contour points. -/
noncomputable def compute_gonial_angle (landmarks : PyVal) : MetricVal :=
  let jaw_left := get_point landmarks "contour_left9"
  let jaw_right := get_point landmarks "contour_right9"
  let gonion := get_point landmarks "contour_chin"
  if isSentinel jaw_left || isSentinel jaw_right then .na
  else
    match ptQ jaw_left, ptQ gonion, ptQ jaw_right with
    | .ok p1, .ok p2, .ok p3 =>
        .real (rround1 (compute_angle_3points (qPt p1) (qPt p2) (qPt p3)))
    | _, _, _ => .na

/-- compute_bizygomatic_width: distance between the zygomatic contour
points; 130.0 on any exception. -/
noncomputable def compute_bizygomatic_width (landmarks : PyVal) : ℝ :=
  match numPt landmarks "contour_left7", numPt landmarks "contour_right7" with
  | .ok l, .ok r => compute_distance l r
  | _, _ => 130

/-- compute_bigonial_width: distance between the gonial contour points;
110.0 on any exception. -/
noncomputable def compute_bigonial_width (landmarks : PyVal) : ℝ :=
  match numPt landmarks "contour_left9", numPt landmarks "contour_right9" with
  | .ok l, .ok r => compute_distance l r
  | _, _ => 110

/-- compute_facial_width_height_ratio: bizygomatic width over brow-to-chin
height, 0.85 when the height is not positive or on any exception. -/
noncomputable def compute_facial_width_height_ratio (landmarks : PyVal) : ℝ :=
  let bizygo := compute_bizygomatic_width landmarks
  match numPt landmarks "left_eyebrow_upper_middle",
      numPt landmarks "contour_chin" with
  | .ok top, .ok bottom =>
      let height := compute_distance top bottom
      if height > 0 then bizygo / height else 0.85
  | _, _ => 0.85

/-- Lines 176-184 of compute_facial_thirds: normalize the three segment
lengths to percentages, with the (33.3, 33.3, 33.3) result when the total
is zero. -/
noncomputable def thirdsNormalize (upper middle lower : ℝ) : ℝ × ℝ × ℝ :=
  let total := upper + middle + lower
  if total = 0 then (33.3, 33.3, 33.3)
  else (upper / total * 100, middle / total * 100, lower / total * 100)

/-- compute_facial_thirds: the hairline is estimated 200px above the chin,
then the three segment lengths trichion-glabella, glabella-subnasale,
subnasale-menton are normalized; (33.3, 33.3, 33.3) on any exception. -/
noncomputable def compute_facial_thirds (landmarks : PyVal) : ℝ × ℝ × ℝ :=
  match numPt landmarks "contour_chin",
      numPt landmarks "left_eyebrow_upper_middle",
      numPt landmarks "nose_contour_lower_middle" with
  | .ok chin, .ok glabella, .ok subnasale =>
      let trichion : ℚ × ℚ := (chin.1, chin.2 - 200)
      thirdsNormalize (compute_distance trichion glabella)
        (compute_distance glabella subnasale) (compute_distance subnasale chin)
  | _, _, _ => (33.3, 33.3, 33.3)

/-- compute_eye_whr: average eye height over average eye width, 0.33 when
the average width is not positive or on any exception. -/
noncomputable def compute_eye_whr (landmarks : PyVal) : ℝ :=
  match numPt landmarks "left_eye_left_corner",
      numPt landmarks "left_eye_right_corner",
      numPt landmarks "left_eye_upper_left_quarter",
      numPt landmarks "left_eye_lower_left_quarter",
      numPt landmarks "right_eye_left_corner",
      numPt landmarks "right_eye_right_corner",
      numPt landmarks "right_eye_upper_right_quarter",
      numPt landmarks "right_eye_lower_right_quarter" with
  | .ok lw1, .ok lw2, .ok lh1, .ok lh2, .ok rw1, .ok rw2, .ok rh1, .ok rh2 =>
      let left_width := compute_distance lw1 lw2
      let left_height := compute_distance lh1 lh2
      let right_width := compute_distance rw1 rw2
      let right_height := compute_distance rh1 rh2
      let avg_width := (left_width + right_width) / 2
      let avg_height := (left_height + right_height) / 2
      if avg_width > 0 then avg_height / avg_width else 0.33
  | _, _, _, _, _, _, _, _ => 0.33

/-- compute_lip_fullness: vermillion height over bizygomatic width, 0.12
when the width is not positive or on any exception. -/
noncomputable def compute_lip_fullness (landmarks : PyVal) : ℝ :=
  match numPt landmarks "mouth_upper_lip_top",
      numPt landmarks "mouth_lower_lip_bottom" with
  | .ok upper_lip, .ok lower_lip =>
      let lip_height := compute_distance upper_lip lower_lip
      let bizygo := compute_bizygomatic_width landmarks
      if bizygo > 0 then lip_height / bizygo else 0.12
  | _, _ => 0.12

/-- compute_jaw_prominence: bigonial over bizygomatic width, 0.85 when the
bizygomatic width is not positive. -/
noncomputable def compute_jaw_prominence (landmarks : PyVal) : ℝ :=
  let bigonial := compute_bigonial_width landmarks
  let bizygo := compute_bizygomatic_width landmarks
  if bizygo > 0 then bigonial / bizygo else 0.85

/-- compute_nose_chin_distance: N/A when chin or nose tip is the missing
sentinel (or malformed), else the rounded distance between them. -/
noncomputable def compute_nose_chin_distance (profile_landmarks : PyVal) :
    MetricVal :=
  let chin := get_point profile_landmarks "contour_chin"
  let nose_tip := get_point profile_landmarks "nose_tip"
  if isSentinel chin || isSentinel nose_tip then .na
  else
    match ptQ chin, ptQ nose_tip with
    | .ok c, .ok n => .real (rround1 (compute_distance c n))
    | _, _ => .na

/-- compute_nose_width: N/A when either nostril point is the sentinel (or
malformed), else the rounded alar width. -/
noncomputable def compute_nose_width (front_landmarks : PyVal) : MetricVal :=
  let nl := get_point front_landmarks "nose_left"
  let nr := get_point front_landmarks "nose_right"
  if isSentinel nl || isSentinel nr then .na
  else
    match ptQ nl, ptQ nr with
    | .ok l, .ok r => .real (rround1 (compute_distance l r))
    | _, _ => .na

/-- compute_nose_length: N/A when root or tip is the sentinel (or
malformed), else the rounded root-to-tip distance. -/
noncomputable def compute_nose_length (front_landmarks : PyVal) : MetricVal :=
  let root := get_point front_landmarks "nose_contour_upper_middle"
  let tip := get_point front_landmarks "nose_tip"
  if isSentinel root || isSentinel tip then .na
  else
    match ptQ root, ptQ tip with
    | .ok r, .ok t => .real (rround1 (compute_distance r t))
    | _, _ => .na

/-- compute_nose_projection: N/A when tip or root is the sentinel (or the
x-coordinates are non-numeric), else the rounded absolute horizontal offset
of the tip beyond the root. -/
noncomputable def compute_nose_projection (profile_landmarks : PyVal) :
    MetricVal :=
  let nose_tip := get_point profile_landmarks "nose_tip"
  let nose_root := get_point profile_landmarks "nose_contour_upper_middle"
  if isSentinel nose_tip || isSentinel nose_root then .na
  else
    match nose_tip.1.toQ, nose_root.1.toQ with
    | .ok tx, .ok rx => .real (rround1 |(tx : ℝ) - (rx : ℝ)|)
    | _, _ => .na

/-- compute_chin_projection: N/A when the chin is the sentinel, or both
subnasale and the nose-tip fallback are the sentinel, or an x-coordinate is
non-numeric; else the rounded absolute horizontal chin offset. -/
noncomputable def compute_chin_projection (profile_landmarks : PyVal) :
    MetricVal :=
  let chin := get_point profile_landmarks "contour_chin"
  let subnasale := get_point profile_landmarks "nose_contour_lower_middle"
  if isSentinel chin then .na
  else
    let subnasale2 :=
      if isSentinel subnasale then get_point profile_landmarks "nose_tip"
      else subnasale
    if isSentinel subnasale2 then .na
    else
      match chin.1.toQ, subnasale2.1.toQ with
      | .ok cx, .ok sx => .real (rround1 |(cx : ℝ) - (sx : ℝ)|)
      | _, _ => .na

/-! ## Metric aggregator (src/analyzers/lookism_metrics.py, compute_all) -/

/-- Inject a skin-record value into the aggregate record. -/
noncomputable def skinToMetric : SkinVal → MetricVal
  | .num q => .real (q : ℝ)
  | .na => .na

/-- The dict literal of compute_all (lines 423-451) followed by the
update with the skin metrics.  The literal writes the key chin_projection
twice (the computed entry of line 428 and the placeholder N/A of line 447);
per Python dict-literal semantics the later value wins, which is what the
right-to-left lookup of recGet reads off this association list.  The skin
update only adds fresh keys, so appending matches dict.update. -/
noncomputable def allMetricsRecord (front_data front_landmarks profile_landmarks : PyVal)
    (age gender beauty_male beauty_female : MetricVal) (beauty_avg : ℚ) :
    List (String × MetricVal) :=
  let thirds := compute_facial_thirds front_landmarks
  [("canthal_tilt", .real (compute_canthal_tilt front_landmarks)),
   ("interpupil_distance", .real (compute_interpupil_distance front_landmarks)),
   ("mid_face_ratio", .real (compute_mid_face_ratio front_landmarks)),
   ("gonial_angle",
     if pyTruthy profile_landmarks then compute_gonial_angle profile_landmarks
     else .na),
   ("chin_projection",
     if pyTruthy profile_landmarks then compute_chin_projection profile_landmarks
     else .na),
   ("nose_chin_distance",
     if pyTruthy profile_landmarks then
       compute_nose_chin_distance profile_landmarks
     else .na),
   ("nose_projection",
     if pyTruthy profile_landmarks then
       compute_nose_projection profile_landmarks
     else .na),
   ("bizygomatic_width", .real (compute_bizygomatic_width front_landmarks)),
   ("bigonial_width", .real (compute_bigonial_width front_landmarks)),
   ("facial_width_height_ratio",
     .real (compute_facial_width_height_ratio front_landmarks)),
   ("facial_thirds", .thirds thirds.1 thirds.2.1 thirds.2.2),
   ("age", age),
   ("gender", gender),
   ("symmetry_score", .real ((compute_symmetry_score front_landmarks : ℚ) : ℝ)),
   ("eye_whr", .real (compute_eye_whr front_landmarks)),
   ("lip_fullness", .real (compute_lip_fullness front_landmarks)),
   ("jaw_prominence", .real (compute_jaw_prominence front_landmarks)),
   ("nose_width", compute_nose_width front_landmarks),
   ("nose_length", compute_nose_length front_landmarks),
   ("chin_projection", .na),
   ("beauty_male", beauty_male),
   ("beauty_female", beauty_female),
   ("beauty_avg", .real (beauty_avg : ℝ))] ++
    (compute_skin_metrics front_data).map (fun e => (e.1, skinToMetric e.2))

/-- Lookup in the aggregate record: the rightmost binding of a key wins,
matching Python dict assignment order. -/
def recGet (record : List (String × MetricVal)) (k : String) :
    Option MetricVal :=
  record.reverse.lookup k

/-- The guard of line 409 (front_data falsy, or no landmark key):
true means return the empty record; the membership test raises on a
non-container front_data. -/
def emptyGuard (front_data : PyVal) : Except Unit Bool :=
  if pyTruthy front_data then
    match pyContains front_data "landmark" with
    | .ok c => .ok (!c)
    | .error e => .error e
  else .ok true

/-- The age and gender entries: a .get of the value field with an N/A default on the field dict;
entries: raises when the field value is not a dict. -/
def attrValueField (field : PyVal) : Except Unit MetricVal :=
  match field with
  | .obj fs =>
      .ok (match fs.lookup "value" with
        | some v => .py v
        | none => .na)
  | _ => .error ()

/-- compute_all in the exception monad.  Only the own attribute
plumbing can raise (membership test on a non-container, .get on a non-dict
attributes/beauty/age/gender field, arithmetic on non-numeric beauty
scores); every extractor call is total because each catches its own
exceptions.  Steps are sequenced as in the source; pure steps that cannot
raise are hoisted without observable difference. -/
noncomputable def computeAllE (front_data profile_data : PyVal) :
    Except Unit (List (String × MetricVal)) :=
  match emptyGuard front_data with
  | .error e => .error e
  | .ok true => .ok []
  | .ok false =>
    match pyGetD front_data "landmark" (.obj []) with
    | .error e => .error e
    | .ok front_landmarks =>
      match (if pyTruthy profile_data then pyGet1 profile_data "landmark"
          else .ok (.obj [])) with
      | .error e => .error e
      | .ok profile_landmarks =>
        match pyGetD front_data "attributes" (.obj []) with
        | .error e => .error e
        | .ok attributes =>
          match pyGetD attributes "beauty" (.obj []) with
          | .error e => .error e
          | .ok beauty =>
            match pyGetD attributes "age" (.obj []),
                pyGetD attributes "gender" (.obj []) with
            | .ok age_field, .ok gender_field =>
              match attrValueField age_field, attrValueField gender_field with
              | .ok age, .ok gender =>
                match pyGetD beauty "male_score" (.num 50),
                    pyGetD beauty "female_score" (.num 50) with
                | .ok bm, .ok bf =>
                  match bm.toQ, bf.toQ with
                  | .ok bmq, .ok bfq =>
                      .ok (allMetricsRecord front_data front_landmarks
                        profile_landmarks age gender (.py bm) (.py bf)
                        ((bmq + bfq) / 2))
                  | _, _ => .error ()
                | _, _ => .error ()
              | _, _ => .error ()
            | _, _ => .error ()

/-- The profile landmark set compute_all works with: the landmark field of
a truthy profile payload (None when absent), the empty dict otherwise. -/
def profLm (profile_data : PyVal) : PyVal :=
  if pyTruthy profile_data then
    match profile_data with
    | .obj pfs => (pfs.lookup "landmark").getD .none_
    | _ => .none_
  else .obj []

/-- A field that, when present, must be a dict for compute_all not to
raise. -/
def objOrAbsent : Option PyVal → Bool
  | some (.obj _) => true
  | some _ => false
  | none => true

/-- A field that, when present, must be a number for compute_all not to
raise. -/
def numOrAbsent : Option PyVal → Bool
  | some (.num _) => true
  | some _ => false
  | none => true

/-- Well-formedness of the attributes payload: age/gender/beauty fields are
dicts when present, and the beauty sub-scores are numbers when present. -/
def wfAttrVal : PyVal → Bool
  | .obj afs =>
      objOrAbsent (afs.lookup "age") && objOrAbsent (afs.lookup "gender") &&
        (match afs.lookup "beauty" with
          | some (.obj bfs) =>
              numOrAbsent (bfs.lookup "male_score") &&
                numOrAbsent (bfs.lookup "female_score")
          | some _ => false
          | none => true)
  | _ => false

/-- Well-formedness of a front payload given as a dict: its attributes
field, when present, is a well-formed attributes dict. -/
def wfFrontObj (ffs : List (String × PyVal)) : Bool :=
  match ffs.lookup "attributes" with
  | some a => wfAttrVal a
  | none => true

/-- Well-formedness of the profile payload: a dict, or anything falsy. -/
def wfProfile : PyVal → Bool
  | .obj _ => true
  | p => !pyTruthy p

/-- The keys every successful non-empty aggregate record carries. -/
def metricKeys : List String :=
  ["canthal_tilt", "interpupil_distance", "mid_face_ratio", "gonial_angle",
   "chin_projection", "nose_chin_distance", "nose_projection",
   "bizygomatic_width", "bigonial_width", "facial_width_height_ratio",
   "facial_thirds", "age", "gender", "symmetry_score", "eye_whr",
   "lip_fullness", "jaw_prominence", "nose_width", "nose_length",
   "beauty_male", "beauty_female", "beauty_avg", "skin_score", "health",
   "acne", "stain"]

/-! ## Rating / classifier (src/analyzers/metrics.py, lines 330-364) -/

/-- max(0, min(10, x)) as used by the composite-rating sub-scores. -/
def clamp10 (x : ℚ) : ℚ := max 0 (min 10 x)

/-- canthal_score = max(0, min(10, 5 + canthal_tilt / 2)). -/
def canthal_score (canthal_tilt : ℚ) : ℚ := clamp10 (5 + canthal_tilt / 2)

/-- gonial_score = max(0, min(10, 10 - abs(gonial_angle - 120) / 10)). -/
def gonial_score (gonial_angle : ℚ) : ℚ := clamp10 (10 - |gonial_angle - 120| / 10)

/-- midface_score = max(0, min(10, 10 - abs(midface_ratio - 0.5) * 20)). -/
def midface_score (midface_ratio : ℚ) : ℚ := clamp10 (10 - |midface_ratio - 0.5| * 20)

/-- The composite rating of extract_all_metrics: beauty_score * 0.4 +
canthal_score * 0.25 + gonial_score * 0.2 + symmetry_score * 0.1 +
midface_score * 0.05, where beauty_score = beauty_avg / 10 and
symmetry_score = symmetry * 10. -/
def composite_rating
    (beauty_avg canthal_tilt gonial_angle symmetry midface_ratio : ℚ) : ℚ :=
  (beauty_avg / 10) * 0.4 + canthal_score canthal_tilt * 0.25 +
    gonial_score gonial_angle * 0.2 + (symmetry * 10) * 0.1 +
    midface_score midface_ratio * 0.05

/-- The category ladder of extract_all_metrics (lines 351-362). -/
def category (composite : ℚ) : String :=
  if composite ≤ 3 then "Sub-5"
  else if composite ≤ 4.5 then "LTN"
  else if composite ≤ 6 then "HTN"
  else if composite ≤ 7.5 then "Chad-Lite"
  else if composite ≤ 8.5 then "PSL-God-Candidate"
  else "PSL-God"

/-- Concrete landmark set whose two canthal lines are both vertical. -/
def vertLm : PyVal :=
  .obj [("left_eye_left_corner", .obj [("x", .num 10), ("y", .num 5)]),
        ("left_eye_right_corner", .obj [("x", .num 10), ("y", .num 9)]),
        ("right_eye_left_corner", .obj [("x", .num 30), ("y", .num 2)]),
        ("right_eye_right_corner", .obj [("x", .num 30), ("y", .num 8)])]

/-- A profile landmark set with proper chin and subnasale points. -/
def profileLmA : PyVal :=
  .obj [("contour_chin", .obj [("x", .num 110), ("y", .num 200)]),
        ("nose_contour_lower_middle", .obj [("x", .num 95), ("y", .num 160)])]

/-- The record compute_all produces when every landmark is missing: each
metric takes its determined degraded value. -/
noncomputable def emptyLandmarkRecord : List (String × MetricVal) :=
  [("canthal_tilt", .real 0),
   ("interpupil_distance", .real 0),
   ("mid_face_ratio", .real 0.65),
   ("gonial_angle", .na),
   ("chin_projection", .na),
   ("nose_chin_distance", .na),
   ("nose_projection", .na),
   ("bizygomatic_width", .real 0),
   ("bigonial_width", .real 0),
   ("facial_width_height_ratio", .real 0.85),
   ("facial_thirds", .thirds 100 0 0),
   ("age", .na),
   ("gender", .na),
   ("symmetry_score", .real 0.8),
   ("eye_whr", .real 0.33),
   ("lip_fullness", .real 0.12),
   ("jaw_prominence", .real 0.85),
   ("nose_width", .na),
   ("nose_length", .na),
   ("chin_projection", .na),
   ("beauty_male", .py (.num 50)),
   ("beauty_female", .py (.num 50)),
   ("beauty_avg", .real 50),
   ("skin_score", .real 78.6),
   ("health", .real 100),
   ("acne", .real 60),
   ("stain", .real 60)]

lemma degrees_nonneg {x : ℝ} (hx : 0 ≤ x) : 0 ≤ degrees x := by
  unfold degrees
  positivity

lemma degrees_le_180 {x : ℝ} (hx : x ≤ Real.pi) : degrees x ≤ 180 := by
  unfold degrees
  rw [div_le_iff₀ Real.pi_pos]
  calc x * 180 ≤ Real.pi * 180 := by nlinarith [Real.pi_pos]
    _ = 180 * Real.pi := by ring

lemma arccos_deg_mem_Icc (c : ℝ) :
    0 ≤ degrees (Real.arccos c) ∧ degrees (Real.arccos c) ≤ 180 :=
  ⟨degrees_nonneg (Real.arccos_nonneg c), degrees_le_180 (Real.arccos_le_pi c)⟩

/-- C6: for every triple of points, the angle-at-vertex functions (both the
analyzers and the core variant) return a value in [0, 180] degrees — the
cosine is clamped into [-1, 1] before acos, so the result is a well-defined
real, never NaN — and whenever either ray from the vertex has zero
magnitude they return 0 instead of raising or propagating NaN. -/
theorem C6_angle_at_vertex_range_and_degenerate (p1 p2 p3 : ℝ × ℝ) :
    (0 ≤ compute_angle_3points p1 p2 p3 ∧ compute_angle_3points p1 p2 p3 ≤ 180) ∧
    (0 ≤ calculate_angle p1 p2 p3 ∧ calculate_angle p1 p2 p3 ≤ 180) ∧
    (Real.sqrt ((p1.1 - p2.1) ^ 2 + (p1.2 - p2.2) ^ 2) = 0 ∨
        Real.sqrt ((p3.1 - p2.1) ^ 2 + (p3.2 - p2.2) ^ 2) = 0 →
      compute_angle_3points p1 p2 p3 = 0 ∧ calculate_angle p1 p2 p3 = 0) := by
  refine ⟨?_, ?_, ?_⟩
  · simp only [compute_angle_3points]
    split_ifs with h
    · norm_num
    · exact arccos_deg_mem_Icc _
  · simp only [calculate_angle]
    split_ifs with h
    · norm_num
    · exact arccos_deg_mem_Icc _
  · intro h
    constructor
    · simp only [compute_angle_3points]
      exact if_pos h
    · simp only [calculate_angle]
      exact if_pos h

/-- Witness for C6 at a concrete degenerate input: the ray from the vertex
(0,0) to p1 = (0,0) has zero magnitude, and the angle is 0. -/
theorem C6_witness :
    compute_angle_3points (0, 0) (0, 0) (1, 0) = 0 ∧
      calculate_angle (0, 0) (0, 0) (1, 0) = 0 :=
  (C6_angle_at_vertex_range_and_degenerate (0, 0) (0, 0) (1, 0)).2.2
    (Or.inl (by norm_num))

/-- C2: the classifier composite equals the weighted sum
0.4·beauty + 0.25·canthal + 0.2·gonial + 0.1·symmetry + 0.05·midface with
beauty_avg scaled to 0-10, the canthal sub-score centered at 5 and increasing
in the tilt, the gonial sub-score peaking at 120° with linear falloff, the
symmetry metric scaled linearly to 0-10, and the midface sub-score peaking at
ratio 0.5; categories follow the ordered thresholds ≤3, ≤4.5, ≤6, ≤7.5,
≤8.5, >8.5 over the fixed tier enumeration, boundaries inclusive on the
lower tier (composite exactly 3.0 is in the lowest tier). -/
theorem C2_composite_formula_and_category_thresholds (b c g s m x : ℚ) :
    composite_rating b c g s m =
      0.4 * (b / 10) + 0.25 * max 0 (min 10 (5 + c / 2)) +
        0.2 * max 0 (min 10 (10 - |g - 120| / 10)) + 0.1 * (s * 10) +
        0.05 * max 0 (min 10 (10 - |m - 0.5| * 20)) ∧
    (x ≤ 3 → category x = "Sub-5") ∧
    (3 < x → x ≤ 4.5 → category x = "LTN") ∧
    (4.5 < x → x ≤ 6 → category x = "HTN") ∧
    (6 < x → x ≤ 7.5 → category x = "Chad-Lite") ∧
    (7.5 < x → x ≤ 8.5 → category x = "PSL-God-Candidate") ∧
    (8.5 < x → category x = "PSL-God") ∧
    category 3 = "Sub-5" := by
  refine ⟨?_, ?_, ?_, ?_, ?_, ?_, ?_, by rfl⟩
  · unfold composite_rating canthal_score gonial_score midface_score clamp10
    ring
  · intro h
    simp only [category]
    rw [if_pos h]
  · intro h1 h2
    simp only [category]
    rw [if_neg (by linarith), if_pos h2]
  · intro h1 h2
    simp only [category]
    rw [if_neg (by linarith), if_neg (by linarith), if_pos h2]
  · intro h1 h2
    simp only [category]
    rw [if_neg (by linarith), if_neg (by linarith), if_neg (by linarith),
      if_pos h2]
  · intro h1 h2
    simp only [category]
    rw [if_neg (by linarith), if_neg (by linarith), if_neg (by linarith),
      if_neg (by linarith), if_pos h2]
  · intro h1
    simp only [category]
    rw [if_neg (by linarith), if_neg (by linarith), if_neg (by linarith),
      if_neg (by linarith), if_neg (by linarith)]

/-- Witness for C2 at concrete inputs: a composite of 2 is Sub-5 and a
composite of 7 is Chad-Lite. -/
theorem C2_witness : category 2 = "Sub-5" ∧ category 7 = "Chad-Lite" :=
  ⟨(C2_composite_formula_and_category_thresholds 0 0 0 0 0 2).2.1 (by norm_num),
   (C2_composite_formula_and_category_thresholds 0 0 0 0 0 7).2.2.2.2.1
     (by norm_num) (by norm_num)⟩

/-- C9: the composite score is monotone nondecreasing in beauty_avg with all
other metrics held fixed. -/
theorem C9_composite_monotone_in_beauty_avg
    (b1 b2 c g s m : ℚ) (h : b1 ≤ b2) :
    composite_rating b1 c g s m ≤ composite_rating b2 c g s m := by
  unfold composite_rating
  have hb : b1 / 10 ≤ b2 / 10 := by linarith
  linarith

/-- Witness for C9 at a concrete input. -/
theorem C9_witness :
    composite_rating 50 5 120 1 0.5 ≤ composite_rating 60 5 120 1 0.5 :=
  C9_composite_monotone_in_beauty_avg 50 60 5 120 1 0.5 (by norm_num)

lemma symPairAsymmetry_nonneg {lm cx : PyVal} {pr : String × String} {q : ℚ}
    (h : symPairAsymmetry lm cx pr = some q) : 0 ≤ q := by
  unfold symPairAsymmetry at h
  split at h
  · dsimp only at h
    split at h
    · rename_i hmax
      injection h with h
      subst h
      exact div_nonneg (abs_nonneg _) (le_of_lt hmax)
    · exact absurd h (by simp)
  · exact absurd h (by simp)

lemma validAsymmetries_nonneg (lm : PyVal) {q : ℚ}
    (hq : q ∈ validAsymmetries lm) : 0 ≤ q := by
  unfold validAsymmetries at hq
  obtain ⟨pr, _, hpr⟩ := List.mem_filterMap.mp hq
  exact symPairAsymmetry_nonneg hpr

/-- C8: for every landmark input compute_symmetry_score lies in [0, 1], and
when zero valid landmark pairs are found (in particular when all landmarks
are missing) it returns the neutral constant 0.8. -/
theorem C8_symmetry_score_bounds (lm : PyVal) :
    (0 ≤ compute_symmetry_score lm ∧ compute_symmetry_score lm ≤ 1) ∧
      ((validAsymmetries lm).length = 0 → compute_symmetry_score lm = 0.8) := by
  constructor
  · unfold compute_symmetry_score
    dsimp only
    split_ifs with h
    · norm_num
    · have hsum : 0 ≤ (validAsymmetries lm).sum :=
        List.sum_nonneg (fun q hq => validAsymmetries_nonneg lm hq)
      have hlen : (0 : ℚ) ≤ ((validAsymmetries lm).length : ℚ) := by positivity
      have havg : 0 ≤ (validAsymmetries lm).sum / ((validAsymmetries lm).length : ℚ) :=
        div_nonneg hsum hlen
      constructor
      · exact le_max_left _ _
      · exact max_le (by norm_num) (by linarith)
  · intro h
    unfold compute_symmetry_score
    dsimp only
    rw [if_pos h]

lemma validAsymmetries_obj_nil : validAsymmetries (.obj []) = [] := by
  norm_num [validAsymmetries, symmetry_pairs, symPairAsymmetry, get_point,
    pyIndex, PyVal.toQ]

/-- Witness for C8: on the empty landmark set there are zero valid pairs and
the score is the neutral 0.8. -/
theorem C8_witness :
    (validAsymmetries (.obj [])).length = 0 ∧
      compute_symmetry_score (.obj []) = 0.8 :=
  ⟨by rw [validAsymmetries_obj_nil]; rfl,
   (C8_symmetry_score_bounds (.obj [])).2 (by rw [validAsymmetries_obj_nil]; rfl)⟩

lemma qround1_of_int (x : ℚ) (n : ℤ) (h : 10 * x = (n : ℚ)) :
    qround1 x = (n : ℚ) / 10 := by
  unfold qround1 pyRoundInt
  rw [h, Int.floor_intCast]
  norm_num

/-- C3 counterexample: with every raw skin attribute absent the code returns
skin_score 78.6 (raw defaults 50 are normalized to sub-scores 100/60/60 and
face quality defaults to 80), while substituting the claimed midpoint 50 for
each sub-score and for face quality would give 50. -/
theorem C3_counterexample :
    (compute_skin_metrics (mkSkinFace none none none none)).lookup "skin_score"
        = some (.num 78.6) ∧
      skin_score_claimed none none none none = 50 ∧ (78.6 : ℚ) ≠ 50 := by
  refine ⟨?_, ?_, by norm_num⟩
  · have h : (compute_skin_metrics (mkSkinFace none none none none)).lookup
        "skin_score" = some (.num (qround1 (0.7 *
          (0.45 * clamp100 (50 * 12.5 + 20) + 0.40 * clamp100 (120 - 1.2 * 50) +
            0.15 * clamp100 (120 - 1.2 * 50)) + 0.3 * 80))) := rfl
    rw [h]
    have h2 : (0.7 * (0.45 * clamp100 (50 * 12.5 + 20) +
        0.40 * clamp100 (120 - 1.2 * 50) + 0.15 * clamp100 (120 - 1.2 * 50)) +
        0.3 * 80 : ℚ) = 78.6 := by
      norm_num [clamp100]
    rw [h2, qround1_of_int 78.6 786 (by norm_num)]
    norm_num
  · have h : skin_score_claimed none none none none =
        qround1 (0.7 * (0.45 * 50 + 0.40 * 50 + 0.15 * 50) + 0.3 * 50) := rfl
    rw [h]
    have h2 : (0.7 * (0.45 * 50 + 0.40 * 50 + 0.15 * 50) + 0.3 * 50 : ℚ) = 50 := by
      norm_num
    rw [h2, qround1_of_int 50 500 (by norm_num)]
    norm_num

lemma thirdsNormalize_sum {u m l : ℝ} (h : u + m + l ≠ 0) :
    (thirdsNormalize u m l).1 + (thirdsNormalize u m l).2.1 +
      (thirdsNormalize u m l).2.2 = 100 := by
  unfold thirdsNormalize
  dsimp only
  rw [if_neg h]
  field_simp
  ring

/-- C7: the three proportions returned by compute_facial_thirds sum to 100
exactly whenever the total of the three segment lengths is positive, and
equal (33.3, 33.3, 33.3) when that total is zero (the every-input statement
covers the exception fallback, which is also the 33.3 triple). -/
theorem C7_facial_thirds_normalization (lm : PyVal) (u m l : ℝ) :
    ((compute_facial_thirds lm).1 + (compute_facial_thirds lm).2.1 +
        (compute_facial_thirds lm).2.2 = 100 ∨
      compute_facial_thirds lm = (33.3, 33.3, 33.3)) ∧
    (0 < u + m + l →
      (thirdsNormalize u m l).1 + (thirdsNormalize u m l).2.1 +
        (thirdsNormalize u m l).2.2 = 100) ∧
    (u + m + l = 0 → thirdsNormalize u m l = (33.3, 33.3, 33.3)) := by
  refine ⟨?_, fun h => thirdsNormalize_sum (ne_of_gt h), fun h => ?_⟩
  · unfold compute_facial_thirds
    split
    · rename_i chin glabella subnasale hc hg hs
      dsimp only
      by_cases htot : compute_distance (chin.1, chin.2 - 200) glabella +
          compute_distance glabella subnasale +
          compute_distance subnasale chin = 0
      · right
        unfold thirdsNormalize
        dsimp only
        rw [if_pos htot]
      · left
        exact thirdsNormalize_sum htot
    · right
      rfl
  · unfold thirdsNormalize
    dsimp only
    rw [if_pos h]

/-- Witness for C7 at concrete segment lengths 1, 1, 0. -/
theorem C7_witness :
    (0 : ℝ) < 1 + 1 + 0 ∧
      (thirdsNormalize 1 1 0).1 + (thirdsNormalize 1 1 0).2.1 +
        (thirdsNormalize 1 1 0).2.2 = 100 :=
  ⟨by norm_num,
   (C7_facial_thirds_normalization (.obj []) 1 1 0).2.1 (by norm_num)⟩

/-- C10: when the outer and inner canthus of an eye have equal x-coordinates the
dx ≠ 0 guard makes that eye contribute a tilt of 0 regardless of the
vertical offset — instead of the ±90 degrees atan2 would give on a vertical
line — and a face with both canthal lines vertical gets canthal_tilt 0. -/
theorem C10_vertical_canthal_line_gives_zero (lm : PyVal)
    (left_outer left_inner right_inner right_outer : ℚ × ℚ) (dy : ℚ)
    (h1 : numPt lm "left_eye_left_corner" = .ok left_outer)
    (h2 : numPt lm "left_eye_right_corner" = .ok left_inner)
    (h3 : numPt lm "right_eye_left_corner" = .ok right_inner)
    (h4 : numPt lm "right_eye_right_corner" = .ok right_outer)
    (hlx : left_outer.1 = left_inner.1)
    (hrx : right_inner.1 = right_outer.1) :
    eyeTilt 0 dy = 0 ∧
      (0 < dy → degrees (atan2 (dy : ℝ) 0) = 90) ∧
      (dy < 0 → degrees (atan2 (dy : ℝ) 0) = -90) ∧
      compute_canthal_tilt lm = 0 := by
  refine ⟨?_, ?_, ?_, ?_⟩
  · unfold eyeTilt
    rw [if_neg (by simp)]
  · intro hy
    have hy' : (0 : ℝ) < (dy : ℝ) := by exact_mod_cast hy
    unfold atan2
    rw [if_neg (lt_irrefl 0), if_neg (lt_irrefl 0), if_pos hy']
    unfold degrees
    field_simp
    ring
  · intro hy
    have hy' : (dy : ℝ) < 0 := by exact_mod_cast hy
    unfold atan2
    rw [if_neg (lt_irrefl 0), if_neg (lt_irrefl 0),
      if_neg (asymm hy'), if_pos hy']
    unfold degrees
    field_simp
    ring
  · unfold compute_canthal_tilt
    rw [h1, h2, h3, h4]
    dsimp only
    have hl : left_outer.1 - left_inner.1 = 0 := by rw [hlx]; ring
    have hr : right_inner.1 - right_outer.1 = 0 := by rw [hrx]; ring
    rw [hl, hr]
    unfold eyeTilt
    rw [if_neg (by simp)]
    norm_num

/-- Witness for C10: both canthal lines vertical gives canthal_tilt 0. -/
theorem C10_witness : compute_canthal_tilt vertLm = 0 :=
  (C10_vertical_canthal_line_gives_zero vertLm (10, 5) (10, 9) (30, 2) (30, 8)
    1 rfl rfl rfl rfl rfl rfl).2.2.2

lemma wfProfile_cases {p : PyVal} (hp : wfProfile p = true) :
    (∃ pfs, p = .obj pfs) ∨ pyTruthy p = false := by
  cases p with
  | obj pfs => exact Or.inl ⟨pfs, rfl⟩
  | num q =>
      right
      simp only [wfProfile] at hp
      simpa using hp
  | str s =>
      right
      simp only [wfProfile] at hp
      simpa using hp
  | none_ => exact Or.inr rfl

lemma computeAllE_falsy (f p : PyVal) (hf : pyTruthy f = false) :
    computeAllE f p = .ok [] := by
  unfold computeAllE emptyGuard
  rw [hf]
  rfl

lemma computeAllE_no_landmark (ffs : List (String × PyVal)) (p : PyVal)
    (h : ffs.any (fun e => e.1 == "landmark") = false) :
    computeAllE (.obj ffs) p = .ok [] := by
  have hc : pyContains (.obj ffs) "landmark" = .ok false := by
    simp only [pyContains, h]
  cases ht : pyTruthy (.obj ffs) with
  | false => exact computeAllE_falsy _ _ ht
  | true =>
      unfold computeAllE emptyGuard
      rw [ht, hc]
      rfl

lemma compute_skin_metrics_shape (f : PyVal) :
    ∃ v1 v2 v3 v4, compute_skin_metrics f =
      [("skin_score", v1), ("health", v2), ("acne", v3), ("stain", v4)] := by
  unfold compute_skin_metrics
  rcases hs : skinScores f with e | ⟨a, b, c, d⟩
  · exact ⟨_, _, _, _, rfl⟩
  · exact ⟨_, _, _, _, rfl⟩

lemma wfFront_attrs {ffs : List (String × PyVal)}
    (hwf : wfFrontObj ffs = true) :
    ∃ afs, (ffs.lookup "attributes").getD (.obj []) = .obj afs ∧
      wfAttrVal (.obj afs) = true := by
  unfold wfFrontObj at hwf
  rcases hA : ffs.lookup "attributes" with _ | av <;> rw [hA] at hwf
  · exact ⟨[], rfl, by rfl⟩
  · dsimp only at hwf
    cases av with
    | obj afs => exact ⟨afs, rfl, hwf⟩
    | num q => simp [wfAttrVal] at hwf
    | str s => simp [wfAttrVal] at hwf
    | none_ => simp [wfAttrVal] at hwf

lemma wfAttrVal_fields {afs : List (String × PyVal)}
    (h : wfAttrVal (.obj afs) = true) :
    (∃ ags, (afs.lookup "age").getD (.obj []) = .obj ags) ∧
    (∃ ggs, (afs.lookup "gender").getD (.obj []) = .obj ggs) ∧
    (∃ bfs, (afs.lookup "beauty").getD (.obj []) = .obj bfs ∧
      (∃ mq, (bfs.lookup "male_score").getD (.num 50) = .num mq) ∧
      (∃ fqv, (bfs.lookup "female_score").getD (.num 50) = .num fqv)) := by
  simp only [wfAttrVal, Bool.and_eq_true] at h
  obtain ⟨⟨hage, hgen⟩, hbeauty⟩ := h
  refine ⟨?_, ?_, ?_⟩
  · rcases ha : afs.lookup "age" with _ | v <;> rw [ha] at hage
    · exact ⟨[], rfl⟩
    · cases v with
      | obj o => exact ⟨o, rfl⟩
      | num q => simp [objOrAbsent] at hage
      | str s => simp [objOrAbsent] at hage
      | none_ => simp [objOrAbsent] at hage
  · rcases hg : afs.lookup "gender" with _ | v <;> rw [hg] at hgen
    · exact ⟨[], rfl⟩
    · cases v with
      | obj o => exact ⟨o, rfl⟩
      | num q => simp [objOrAbsent] at hgen
      | str s => simp [objOrAbsent] at hgen
      | none_ => simp [objOrAbsent] at hgen
  · rcases hb : afs.lookup "beauty" with _ | v <;> rw [hb] at hbeauty
    · exact ⟨[], rfl, ⟨50, rfl⟩, ⟨50, rfl⟩⟩
    · cases v with
      | obj bfs =>
          dsimp only at hbeauty
          rw [Bool.and_eq_true] at hbeauty
          obtain ⟨hm, hf⟩ := hbeauty
          refine ⟨bfs, rfl, ?_, ?_⟩
          · rcases hm' : bfs.lookup "male_score" with _ | w <;> rw [hm'] at hm
            · exact ⟨50, rfl⟩
            · cases w with
              | num q => exact ⟨q, rfl⟩
              | obj o => simp [numOrAbsent] at hm
              | str s => simp [numOrAbsent] at hm
              | none_ => simp [numOrAbsent] at hm
          · rcases hf' : bfs.lookup "female_score" with _ | w <;> rw [hf'] at hf
            · exact ⟨50, rfl⟩
            · cases w with
              | num q => exact ⟨q, rfl⟩
              | obj o => simp [numOrAbsent] at hf
              | str s => simp [numOrAbsent] at hf
              | none_ => simp [numOrAbsent] at hf
      | num q => simp at hbeauty
      | str s => simp at hbeauty
      | none_ => simp at hbeauty

lemma computeAllE_ok_shape (ffs : List (String × PyVal)) (p : PyVal)
    (hlm : ffs.any (fun e => e.1 == "landmark") = true)
    (hwf : wfFrontObj ffs = true) (hp : wfProfile p = true) :
    ∃ age gender bm bf bavg,
      computeAllE (.obj ffs) p =
        .ok (allMetricsRecord (.obj ffs)
          ((ffs.lookup "landmark").getD (.obj [])) (profLm p)
          age gender bm bf bavg) := by
  have ht : pyTruthy (.obj ffs) = true := by
    cases ffs with
    | nil => simp at hlm
    | cons a t => rfl
  have hguard : emptyGuard (.obj ffs) = .ok false := by
    unfold emptyGuard
    rw [ht]
    simp only [pyContains, hlm]
    rfl
  have hprof : (if pyTruthy p then pyGet1 p "landmark" else .ok (.obj []))
      = .ok (profLm p) := by
    rcases wfProfile_cases hp with ⟨pfs, rfl⟩ | hfalse
    · cases hpt : pyTruthy (.obj pfs) with
      | false => simp [hpt, profLm]
      | true => simp [hpt, profLm, pyGet1, pyGetD]
    · simp [hfalse, profLm]
  obtain ⟨afs, hA, hwfA⟩ := wfFront_attrs hwf
  obtain ⟨⟨ags, hage⟩, ⟨ggs, hgen⟩, ⟨bfs, hB, ⟨mq, hmq⟩, ⟨fqv, hfq⟩⟩⟩ :=
    wfAttrVal_fields hwfA
  refine ⟨(match ags.lookup "value" with | some v => .py v | none => .na),
    (match ggs.lookup "value" with | some v => .py v | none => .na),
    .py (.num mq), .py (.num fqv), (mq + fqv) / 2, ?_⟩
  unfold computeAllE
  simp only [hguard, pyGetD, hprof, hA, hB, hage, hgen, attrValueField,
    hmq, hfq, PyVal.toQ]

lemma recGet_profile_entries (f flm plm : PyVal)
    (age gender bm bf : MetricVal) (bavg : ℚ) :
    recGet (allMetricsRecord f flm plm age gender bm bf bavg)
        "chin_projection" = some .na ∧
      recGet (allMetricsRecord f flm plm age gender bm bf bavg)
        "gonial_angle" =
          some (if pyTruthy plm then compute_gonial_angle plm else .na) ∧
      recGet (allMetricsRecord f flm plm age gender bm bf bavg)
        "nose_projection" =
          some (if pyTruthy plm then compute_nose_projection plm else .na) ∧
      recGet (allMetricsRecord f flm plm age gender bm bf bavg)
        "nose_chin_distance" =
          some (if pyTruthy plm then compute_nose_chin_distance plm else .na) := by
  obtain ⟨v1, v2, v3, v4, hskin⟩ := compute_skin_metrics_shape f
  unfold allMetricsRecord recGet
  rw [hskin]
  exact ⟨rfl, rfl, rfl, rfl⟩

lemma recGet_isSome_metricKeys (f flm plm : PyVal)
    (age gender bm bf : MetricVal) (bavg : ℚ) :
    ∀ k ∈ metricKeys,
      (recGet (allMetricsRecord f flm plm age gender bm bf bavg) k).isSome
        = true := by
  obtain ⟨v1, v2, v3, v4, hskin⟩ := compute_skin_metrics_shape f
  unfold allMetricsRecord recGet
  rw [hskin]
  intro k hk
  simp only [metricKeys] at hk
  fin_cases hk <;> rfl

/-- C1 counterexample: compute_all raises on a dict input whose attributes
payload stores a number under the age key — the .get chained on it is an
AttributeError — so it does not return without raising for every
front_data/profile_data input. -/
theorem C1_counterexample :
    computeAllE (.obj [("landmark", PyVal.obj []),
        ("attributes", PyVal.obj [("age", PyVal.num 5)])]) (.obj [])
      = .error () := rfl

/-- C1 amended: compute_all never raises on well-formed inputs — front_data
falsy or lacking the landmark key gives the empty record, and any dict
front_data whose attributes sub-fields (age, gender, beauty, beauty scores)
have the provider shape, together with a dict-or-falsy profile_data, gives a
complete record in which every metric key is present (an individual metric
failure degrades only the value under its own key, never the record); malformed
attribute payloads, however, can raise. -/
theorem C1_aggregator_totality (f p : PyVal) :
    (∀ ffs, f = .obj ffs → wfFrontObj ffs = true → wfProfile p = true →
      (computeAllE f p).isOk = true) ∧
    (pyTruthy f = false → computeAllE f p = .ok []) ∧
    (∀ ffs, f = .obj ffs → ffs.any (fun e => e.1 == "landmark") = false →
      computeAllE f p = .ok []) ∧
    (∀ ffs, f = .obj ffs → ffs.any (fun e => e.1 == "landmark") = true →
      wfFrontObj ffs = true → wfProfile p = true →
      ∃ r, computeAllE f p = .ok r ∧
        ∀ k ∈ metricKeys, (recGet r k).isSome = true) := by
  refine ⟨?_, computeAllE_falsy f p, ?_, ?_⟩
  · rintro ffs rfl hwf hp
    cases hlm : ffs.any (fun e => e.1 == "landmark") with
    | false => rw [computeAllE_no_landmark ffs p hlm]; rfl
    | true =>
        obtain ⟨age, gender, bm, bf, bavg, h⟩ :=
          computeAllE_ok_shape ffs p hlm hwf hp
        rw [h]
        rfl
  · rintro ffs rfl hlm
    exact computeAllE_no_landmark ffs p hlm
  · rintro ffs rfl hlm hwf hp
    obtain ⟨age, gender, bm, bf, bavg, h⟩ :=
      computeAllE_ok_shape ffs p hlm hwf hp
    exact ⟨_, h, recGet_isSome_metricKeys _ _ _ _ _ _ _ _⟩

/-- Witness for C1 at a concrete well-formed input. -/
theorem C1_witness :
    (computeAllE (.obj [("landmark", PyVal.obj [])]) (.obj [])).isOk
      = true :=
  (C1_aggregator_totality (.obj [("landmark", PyVal.obj [])]) (.obj [])).1
    [("landmark", PyVal.obj [])] rfl rfl rfl

lemma rround1_of_int (x : ℝ) (n : ℤ) (h : 10 * x = (n : ℝ)) :
    rround1 x = (n : ℝ) / 10 := by
  unfold rround1 rRoundInt
  rw [h, Int.floor_intCast]
  norm_num

/-- C5 counterexample: with profile landmarks supplying all the points
chin projection needs, compute_chin_projection returns the number 15.0, yet
the record of compute_all carries chin_projection = N/A — the placeholder
entry later in the dict literal always overwrites the computed one. -/
theorem C5_counterexample :
    compute_chin_projection profileLmA = .real 15 ∧
      (computeAllE (.obj [("landmark", PyVal.obj [])])
          (.obj [("landmark", profileLmA)])).toOption.map
        (fun r => recGet r "chin_projection") = some (some .na) := by
  constructor
  · have h1 : compute_chin_projection profileLmA =
        .real (rround1 |((110 : ℚ) : ℝ) - ((95 : ℚ) : ℝ)|) := rfl
    rw [h1, show |((110 : ℚ) : ℝ) - ((95 : ℚ) : ℝ)| = 15 by
      push_cast; norm_num]
    rw [rround1_of_int 15 150 (by norm_num)]
    norm_num
  · rfl

/-- C5 amended: in the record of compute_all, gonial_angle, nose_projection
and nose_chin_distance each equal N/A exactly when profile data is absent or
their required profile points are the (0,0) sentinel, and equal the computed
rounded numeric value when proper points are supplied; chin_projection,
however, is always N/A in the record (its placeholder entry overwrites the
computed one), even though compute_chin_projection itself follows the same
N/A-or-value contract. -/
theorem C5_profile_metric_availability (ffs : List (String × PyVal))
    (p plm : PyVal)
    (hlm : ffs.any (fun e => e.1 == "landmark") = true)
    (hwf : wfFrontObj ffs = true) (hp : wfProfile p = true) :
    (∃ r, computeAllE (.obj ffs) p = .ok r ∧
      recGet r "chin_projection" = some .na ∧
      recGet r "gonial_angle" =
        some (if pyTruthy (profLm p) then compute_gonial_angle (profLm p)
          else .na) ∧
      recGet r "nose_projection" =
        some (if pyTruthy (profLm p) then compute_nose_projection (profLm p)
          else .na) ∧
      recGet r "nose_chin_distance" =
        some (if pyTruthy (profLm p) then
          compute_nose_chin_distance (profLm p) else .na)) ∧
    ((isSentinel (get_point plm "contour_left9") ||
        isSentinel (get_point plm "contour_right9")) = true →
      compute_gonial_angle plm = .na) ∧
    (∀ p1 p2 p3 : ℚ × ℚ,
      (isSentinel (get_point plm "contour_left9") ||
        isSentinel (get_point plm "contour_right9")) = false →
      ptQ (get_point plm "contour_left9") = .ok p1 →
      ptQ (get_point plm "contour_chin") = .ok p2 →
      ptQ (get_point plm "contour_right9") = .ok p3 →
      compute_gonial_angle plm =
        .real (rround1 (compute_angle_3points (qPt p1) (qPt p2) (qPt p3)))) ∧
    ((isSentinel (get_point plm "nose_tip") ||
        isSentinel (get_point plm "nose_contour_upper_middle")) = true →
      compute_nose_projection plm = .na) ∧
    (∀ tx rx : ℚ,
      (isSentinel (get_point plm "nose_tip") ||
        isSentinel (get_point plm "nose_contour_upper_middle")) = false →
      (get_point plm "nose_tip").1.toQ = .ok tx →
      (get_point plm "nose_contour_upper_middle").1.toQ = .ok rx →
      compute_nose_projection plm = .real (rround1 |(tx : ℝ) - (rx : ℝ)|)) ∧
    ((isSentinel (get_point plm "contour_chin") ||
        isSentinel (get_point plm "nose_tip")) = true →
      compute_nose_chin_distance plm = .na) ∧
    (∀ c n : ℚ × ℚ,
      (isSentinel (get_point plm "contour_chin") ||
        isSentinel (get_point plm "nose_tip")) = false →
      ptQ (get_point plm "contour_chin") = .ok c →
      ptQ (get_point plm "nose_tip") = .ok n →
      compute_nose_chin_distance plm =
        .real (rround1 (compute_distance c n))) := by
  refine ⟨?_, ?_, ?_, ?_, ?_, ?_, ?_⟩
  · obtain ⟨age, gender, bm, bf, bavg, h⟩ :=
      computeAllE_ok_shape ffs p hlm hwf hp
    obtain ⟨h1, h2, h3, h4⟩ := recGet_profile_entries (.obj ffs)
      ((ffs.lookup "landmark").getD (.obj [])) (profLm p) age gender bm bf bavg
    exact ⟨_, h, h1, h2, h3, h4⟩
  · intro h
    unfold compute_gonial_angle
    simp only [h, if_true]
  · intro p1 p2 p3 hs h1 h2 h3
    unfold compute_gonial_angle
    simp only [hs, Bool.false_eq_true, if_false, h1, h2, h3]
  · intro h
    unfold compute_nose_projection
    simp only [h, if_true]
  · intro tx rx hs h1 h2
    unfold compute_nose_projection
    simp only [hs, Bool.false_eq_true, if_false, h1, h2]
  · intro h
    unfold compute_nose_chin_distance
    simp only [h, if_true]
  · intro c n hs h1 h2
    unfold compute_nose_chin_distance
    simp only [hs, Bool.false_eq_true, if_false, h1, h2]

/-- Witness for C5 at concrete inputs: a supplied profile landmark set makes
the gonial angle a number in the record while chin_projection stays N/A. -/
theorem C5_witness :
    ∃ r, computeAllE (.obj [("landmark", PyVal.obj [])])
        (.obj [("landmark", profileLmA)]) = .ok r ∧
      recGet r "chin_projection" = some .na := by
  obtain ⟨⟨r, h, h1, _⟩, _⟩ := C5_profile_metric_availability
    [("landmark", PyVal.obj [])] (.obj [("landmark", profileLmA)])
    profileLmA rfl rfl rfl
  exact ⟨r, h, h1⟩

lemma canthal_tilt_empty : compute_canthal_tilt (.obj []) = 0 := by
  norm_num [compute_canthal_tilt, numPt, ptQ, get_point, pyIndex, PyVal.toQ,
    eyeTilt]

lemma interpupil_empty : compute_interpupil_distance (.obj []) = 0 := by
  norm_num [compute_interpupil_distance, numPt, ptQ, get_point, pyIndex,
    PyVal.toQ, compute_distance, Real.sqrt_zero]

lemma midface_empty : compute_mid_face_ratio (.obj []) = 0.65 := by
  norm_num [compute_mid_face_ratio, numPt, ptQ, get_point, pyIndex,
    PyVal.toQ, compute_distance, Real.sqrt_zero]

lemma bizygo_empty : compute_bizygomatic_width (.obj []) = 0 := by
  norm_num [compute_bizygomatic_width, numPt, ptQ, get_point, pyIndex,
    PyVal.toQ, compute_distance, Real.sqrt_zero]

lemma bigonial_empty : compute_bigonial_width (.obj []) = 0 := by
  norm_num [compute_bigonial_width, numPt, ptQ, get_point, pyIndex,
    PyVal.toQ, compute_distance, Real.sqrt_zero]

lemma fwhr_empty : compute_facial_width_height_ratio (.obj []) = 0.85 := by
  norm_num [compute_facial_width_height_ratio, numPt, ptQ, get_point,
    pyIndex, PyVal.toQ, compute_distance, Real.sqrt_zero]

lemma dist_vert_200 :
    compute_distance ((0 : ℚ), (0 : ℚ) - 200) ((0 : ℚ), (0 : ℚ)) = 200 := by
  unfold compute_distance
  dsimp only
  rw [show ((((0 : ℚ) : ℝ)) - ((0 : ℚ) : ℝ)) ^ 2 +
      ((((0 : ℚ) - 200 : ℚ) : ℝ) - ((0 : ℚ) : ℝ)) ^ 2 = 200 ^ 2 by
    push_cast; norm_num]
  exact Real.sqrt_sq (by norm_num)

lemma thirds_empty : compute_facial_thirds (.obj []) = (100, 0, 0) := by
  have h1 : compute_facial_thirds (.obj []) =
      thirdsNormalize (compute_distance ((0 : ℚ), (0 : ℚ) - 200) (0, 0))
        (compute_distance ((0 : ℚ), (0 : ℚ)) (0, 0))
        (compute_distance ((0 : ℚ), (0 : ℚ)) (0, 0)) := rfl
  have hd0 : compute_distance ((0 : ℚ), (0 : ℚ)) ((0 : ℚ), (0 : ℚ)) = 0 := by
    norm_num [compute_distance, Real.sqrt_zero]
  rw [h1, dist_vert_200, hd0]
  unfold thirdsNormalize
  norm_num

lemma symmetry_empty : compute_symmetry_score (.obj []) = 0.8 := by
  unfold compute_symmetry_score
  rw [validAsymmetries_obj_nil]
  rfl

lemma eye_whr_empty : compute_eye_whr (.obj []) = 0.33 := by
  norm_num [compute_eye_whr, numPt, ptQ, get_point, pyIndex, PyVal.toQ,
    compute_distance, Real.sqrt_zero]

lemma lip_empty : compute_lip_fullness (.obj []) = 0.12 := by
  norm_num [compute_lip_fullness, numPt, ptQ, get_point, pyIndex, PyVal.toQ,
    compute_distance, Real.sqrt_zero, bizygo_empty]

lemma jaw_empty : compute_jaw_prominence (.obj []) = 0.85 := by
  norm_num [compute_jaw_prominence, bizygo_empty, bigonial_empty]

lemma nose_width_empty : compute_nose_width (.obj []) = .na := rfl

lemma nose_length_empty : compute_nose_length (.obj []) = .na := rfl

lemma skin_front_empty :
    compute_skin_metrics (.obj [("landmark", PyVal.obj [])]) =
      [("skin_score", .num 78.6), ("health", .num 100),
        ("acne", .num 60), ("stain", .num 60)] := by
  have h0 : compute_skin_metrics (.obj [("landmark", PyVal.obj [])]) =
      [("skin_score", .num (qround1 (0.7 *
          (0.45 * clamp100 ((50 : ℚ) * 12.5 + 20) +
            0.40 * clamp100 (120 - 1.2 * 50) +
            0.15 * clamp100 (120 - 1.2 * 50)) + 0.3 * 80))),
       ("health", .num (qround2 (clamp100 ((50 : ℚ) * 12.5 + 20)))),
       ("acne", .num (qround2 (clamp100 ((120 : ℚ) - 1.2 * 50)))),
       ("stain", .num (qround2 (clamp100 ((120 : ℚ) - 1.2 * 50))))] := rfl
  rw [h0]
  norm_num [clamp100, min_def, max_def, qround1, qround2, pyRoundInt]

/-- C4 counterexample: with every landmark key absent, compute_facial_thirds
returns (100, 0, 0) — the synthetic 200px hairline offset makes the total
positive, so the documented 33.3-per-third fallback is never produced. -/
theorem C4_counterexample :
    compute_facial_thirds (.obj []) = (100, 0, 0) ∧
      compute_facial_thirds (.obj []) ≠ (33.3, 33.3, 33.3) := by
  refine ⟨thirds_empty, ?_⟩
  rw [thirds_empty]
  intro h
  have h1 := congrArg Prod.fst h
  norm_num at h1

/-- C4 amended: when all landmark keys are absent, compute_all returns
without raising and each metric carries its determined degraded value —
N/A for the sentinel-checked metrics, the guarded-ratio defaults 0.65,
0.85, 0.33, 0.12, the neutral symmetry 0.8, zero for the sentinel-derived
distances, attribute defaults 50/78.6/100/60/60 — but facial_thirds equals
(100, 0, 0), not the 33.3-per-third fallback. -/
theorem C4_all_missing_landmarks_record :
    computeAllE (.obj [("landmark", PyVal.obj [])]) (.obj [])
      = .ok emptyLandmarkRecord := by
  have h0 : computeAllE (.obj [("landmark", PyVal.obj [])]) (.obj []) =
      .ok (allMetricsRecord (.obj [("landmark", PyVal.obj [])]) (.obj [])
        (.obj []) .na .na (.py (.num 50)) (.py (.num 50))
        ((50 + 50) / 2)) := rfl
  rw [h0]
  unfold allMetricsRecord emptyLandmarkRecord
  rw [skin_front_empty]
  norm_num [canthal_tilt_empty, interpupil_empty, midface_empty,
    bizygo_empty, bigonial_empty, fwhr_empty, thirds_empty, symmetry_empty,
    eye_whr_empty, lip_empty, jaw_empty, nose_width_empty, nose_length_empty,
    pyTruthy, skinToMetric]

/-- C3 amended: skin_score equals
round1(0.7·(0.45·health_norm + 0.40·acne_norm + 0.15·stain_norm) + 0.3·fq)
with each normalized sub-score an affine rescale clamped to [0, 100]; an
absent health/acne/stain raw attribute is replaced by the raw midpoint 50
before normalization, an absent face quality by 80, and the composite is
produced for every combination of absent attributes (never dropped). -/
theorem C3_skin_score_formula (health acne stain fq : Option ℚ) :
    (compute_skin_metrics (mkSkinFace health acne stain fq)).lookup "skin_score"
      = some (.num (qround1 (0.7 *
          (0.45 * clamp100 (health.getD 50 * 12.5 + 20) +
           0.40 * clamp100 (120 - 1.2 * acne.getD 50) +
           0.15 * clamp100 (120 - 1.2 * stain.getD 50)) + 0.3 * fq.getD 80))) := by
  rcases health with _ | h <;> rcases acne with _ | a <;>
    rcases stain with _ | s <;> rcases fq with _ | f <;> rfl

/-- Witness for C3 at a concrete input (health 8, face quality 100, acne and
stain absent): skin_score is 84.6. -/
theorem C3_witness :
    (compute_skin_metrics (mkSkinFace (some 8) none none (some 100))).lookup
        "skin_score" = some (.num 84.6) := by
  rw [C3_skin_score_formula (some 8) none none (some 100)]
  norm_num [clamp100, min_def, max_def, qround1, pyRoundInt]

end NDBot
